import Mathlib

/-!
Verification development for the CuDNN 3-D convolution component
(`src/nnet3/nnet-cudnn-simple-component.cc`).

The C++ source is shallowly embedded below.  Machine `int32` values are
modelled as `Int` (the quantities involved are small shape/stride products,
far from overflow in every reachable configuration, and signed overflow is
undefined behaviour in the source language anyway).  `BaseFloat` values are
modelled by `BF`: either a finite rational or NaN, with NaN propagating
through arithmetic exactly as in IEEE-754; all parameter-moving operations
of the component (serialization, vectorization, copying) are value-exact,
so this carrier is faithful for them.  Fatal `KALDI_ASSERT` / `KALDI_ERR`
aborts are modelled by `Except Fatal`.
-/

set_option maxHeartbeats 1000000
set_option linter.unusedVariables false

namespace Kaldi

/-- Outcome of a fatal abort path in the source.  `assertFailed` is a failed
`KALDI_ASSERT`, `unknownVectorization` is the
`KALDI_ERR << "Unknown or unsupported input vectorization order"` path,
`badStream` is an `ExpectToken` mismatch while deserializing, and
`nullDeref` marks a dereference of a null pointer (undefined behaviour in
the source; the source reaches it where it omits a null check). -/
inductive Fatal where
  | assertFailed
  | unknownVectorization
  | badStream
  | nullDeref
deriving DecidableEq

/-- BaseFloat scalar: a finite rational or NaN.  Exact rational arithmetic
stands in for finite float arithmetic; only NaN-propagation and exact
copying of values matter for the claims below. -/
inductive BF where
  | fin (q : ℚ)
  | nan
deriving DecidableEq

/-- Addition with IEEE NaN propagation. -/
def BF.add : BF → BF → BF
  | .fin a, .fin b => .fin (a + b)
  | _, _ => .nan

/-- Multiplication with IEEE NaN propagation. -/
def BF.mul : BF → BF → BF
  | .fin a, .fin b => .fin (a * b)
  | _, _ => .nan

/-- Square root with IEEE NaN propagation; the finite branch is an abstract
function `sq` since no claim depends on its value. -/
def BF.sqrt (sq : ℚ → ℚ) : BF → BF
  | .fin q => .fin (sq q)
  | .nan => .nan

/-- IEEE `==` comparison: `NaN == x` is false for every `x`, including
`x = NaN`.  This is what the source's `KALDI_ASSERT(f == f)` NaN guard
relies on. -/
def BF.ieeeEq : BF → BF → Bool
  | .fin a, .fin b => decide (a = b)
  | _, _ => false

/-- Sum of a list of BaseFloat values (models `CuVectorBase::Sum`). -/
def sumBF (l : List BF) : BF := l.foldr BF.add (.fin 0)

/-- Dense matrix of the external matrix collaborator, restricted to what the
component uses: a row-major `numRows × numCols` matrix whose stride equals
`numCols` (`kStrideEqualNumCols`), held as a list of rows. -/
structure CuMat where
  numRows : Nat
  numCols : Nat
  rows : List (List BF)
deriving DecidableEq

/-- Well-formedness of the row-major storage: the row list really has
`numRows` rows of `numCols` entries each. -/
def CuMat.wf (m : CuMat) : Prop :=
  m.rows.length = m.numRows ∧ ∀ r ∈ m.rows, r.length = m.numCols

instance (m : CuMat) : Decidable m.wf := by
  unfold CuMat.wf; infer_instance

/-- Frobenius norm of a matrix (modelled collaborator
`CuMatrixBase::FrobeniusNorm`): square root of the sum of squared entries.
NaN in any entry propagates to the result, exactly as in IEEE float
arithmetic. -/
def CuMat.frobeniusNorm (sq : ℚ → ℚ) (m : CuMat) : BF :=
  BF.sqrt sq (sumBF (m.rows.flatten.map (fun x => x.mul x)))

/-- Shape array of a 5-D tensor; slot order is `N, C, X, Y, Z`
(`shape[0] .. shape[4]` of the source). -/
structure Shape5 where
  (d0 d1 d2 d3 d4 : Int)
deriving DecidableEq

/-- Stride array of a 5-D tensor (`strides[0] .. strides[4]`), positionally
aligned with `Shape5`. -/
structure Strides5 where
  (s0 s1 s2 s3 s4 : Int)
deriving DecidableEq

/-- Offset map of the stride contract (spec §4.1):
`offset(n,c,x,y,z) = n*stride[0] + c*stride[1] + x*stride[2] + y*stride[3] + z*stride[4]`. -/
def offset5 (s : Strides5) (n c x y z : Int) : Int :=
  n * s.s0 + c * s.s1 + x * s.s2 + y * s.s3 + z * s.s4

/-- Embedding of `array_strides_NXYZC` (source lines 38-44); shape slots are
`d0=N, d1=C, d2=X, d3=Y, d4=Z`. -/
def array_strides_NXYZC (shape : Shape5) : Strides5 :=
  ⟨shape.d1 * shape.d2 * shape.d3 * shape.d4,
   1,
   shape.d1 * shape.d3 * shape.d4,
   shape.d1 * shape.d4,
   shape.d1⟩

/-- Embedding of `array_strides_NXZYC` (source lines 46-52). -/
def array_strides_NXZYC (shape : Shape5) : Strides5 :=
  ⟨shape.d1 * shape.d2 * shape.d3 * shape.d4,
   1,
   shape.d1 * shape.d3 * shape.d4,
   shape.d1,
   shape.d1 * shape.d3⟩

/-- Embedding of `array_strides_NCXYZ` (source lines 54-60). -/
def array_strides_NCXYZ (shape : Shape5) : Strides5 :=
  ⟨shape.d1 * shape.d2 * shape.d3 * shape.d4,
   shape.d2 * shape.d3 * shape.d4,
   shape.d3 * shape.d4,
   shape.d4,
   1⟩

/-- Embedding of `array_strides_NCXZY` (source lines 62-68). -/
def array_strides_NCXZY (shape : Shape5) : Strides5 :=
  ⟨shape.d1 * shape.d2 * shape.d3 * shape.d4,
   shape.d2 * shape.d3 * shape.d4,
   shape.d3 * shape.d4,
   1,
   shape.d3⟩

/-- Modelled from the spec: the numeric values of the
`TensorVectorizationType` enumeration (`kZyx`, `kYzx`) live in the
component's header, which is not under `src/`; the spec's serialized-format
section fixes the two supported `<InputVectorization>` values to the int32
literals 0 and 1.  Which supported order receives which numeral is
immaterial to every claim below. -/
def kZyx : Int := 0

/-- Modelled from the spec: see `kZyx`. -/
def kYzx : Int := 1

/-- Embedding of `CuDNN3DConvolutionComponent::FillInputStrides` (source
lines 70-78).  The member field `input_vectorization_` is passed explicitly;
it is an `Int` because deserialization stores a raw int32 into it via
`static_cast` without validation. -/
def FillInputStrides (input_vectorization : Int) (shape : Shape5) :
    Except Fatal Strides5 :=
  if input_vectorization = kZyx then .ok (array_strides_NCXYZ shape)
  else if input_vectorization = kYzx then .ok (array_strides_NCXZY shape)
  else .error .unknownVectorization

/-- Embedding of `CuDNN3DConvolutionComponent::FillOutputStrides` (source
lines 80-83).  The member is a const method that does not consult
`input_vectorization_`; the field is still passed here so that independence
from it is expressible. -/
def FillOutputStrides (input_vectorization : Int) (shape : Shape5) : Strides5 :=
  array_strides_NXYZC shape

/-- Filter descriptor contents as set by `cudnnSetFilterNdDescriptor` in
`InitDescriptor` (source lines 143-159): `filters[0] = num_filters_`,
`filters[1] = input_num_filters_`, `filters[2..4]` the kernel extents,
in the fixed channel-major filter layout. -/
structure FilterDesc where
  (k c x y z : Int)
deriving DecidableEq

/-- Convolution mode of the cuDNN convolution descriptor; `InitDescriptor`
always selects `CUDNN_CROSS_CORRELATION`. -/
inductive ConvMode where
  | crossCorrelation
  | convolution
deriving DecidableEq

/-- Convolution descriptor contents as set by
`cudnnSetConvolutionNdDescriptor` in `InitDescriptor` (source lines
161-184): per-axis padding, filter stride and upscale (dilation), plus the
mode. -/
structure ConvDesc where
  (padX padY padZ : Int)
  (strideX strideY strideZ : Int)
  (upscaleX upscaleY upscaleZ : Int)
  mode : ConvMode
deriving DecidableEq

/-- Tensor descriptor contents (dims + strides) as set by
`cudnnSetTensorNdDescriptor`; used for the bias descriptor the component
owns. -/
structure TensorDesc where
  dims : Shape5
  strides : Strides5
deriving DecidableEq

/-- Component state: the fields of `CuDNN3DConvolutionComponent`
(header-declared, all visible through this translation unit), with the
opaque cuDNN descriptor handles replaced by the values the source stores in
them, and the device workspace pointer replaced by an optional allocator
buffer id (`none` = `NULL`). -/
structure CuDNN3DConvolutionComponent where
  learning_rate_ : BF
  (input_x_dim_ input_y_dim_ input_z_dim_ : Int)
  (input_num_filters_ num_filters_ : Int)
  filter_params_ : CuMat
  bias_params_ : List BF
  work_space_ : Option Nat
  work_space_size_ : Nat
  is_gradient_ : Bool
  input_vectorization_ : Int
  filter_desc_ : FilterDesc
  bias_desc_ : TensorDesc
  conv_desc_ : ConvDesc
  (forward_algo_ backward_filter_algo_ backward_data_algo_ : Nat)
deriving DecidableEq

/-- Embedding of `CuDNN3DConvolutionComponent::InitDescriptor` (source lines
137-200).  The member fields it reads (`num_filters_`,
`input_num_filters_`, `input_vectorization_`) are explicit arguments; it
returns the three descriptor values it (re)builds.  The bias tensor is the
degenerate `[1, num_filters_, 1, 1, 1]` shape strided with the *input*
(activation) stride rule, so an unsupported vectorization order is fatal
already here. -/
def InitDescriptor (num_filters input_num_filters input_vectorization : Int)
    (filt_x_dim filt_y_dim filt_z_dim : Int)
    (filt_x_stride filt_y_stride filt_z_stride : Int)
    (pad_x_dim pad_y_dim pad_z_dim : Int)
    (upscale_x_dim upscale_y_dim upscale_z_dim : Int) :
    Except Fatal (FilterDesc × ConvDesc × TensorDesc) :=
  let filter_desc : FilterDesc :=
    ⟨num_filters, input_num_filters, filt_x_dim, filt_y_dim, filt_z_dim⟩
  let conv_desc : ConvDesc :=
    ⟨pad_x_dim, pad_y_dim, pad_z_dim,
     filt_x_stride, filt_y_stride, filt_z_stride,
     upscale_x_dim, upscale_y_dim, upscale_z_dim,
     .crossCorrelation⟩
  let bias_dims : Shape5 := ⟨1, num_filters, 1, 1, 1⟩
  match FillInputStrides input_vectorization bias_dims with
  | .error e => .error e
  | .ok bias_strides => .ok (filter_desc, conv_desc, ⟨bias_dims, bias_strides⟩)

/-- Modelled from the spec: the convolution primitive's own shape-inference
rule (`cudnnGetConvolutionNdForwardOutputDim`) is an external collaborator
not in this repository.  Per the primitive's documented contract, the
returned dims are the input batch size, the filter's output feature count,
and per spatial axis
`1 + (inputDim + 2*pad - (((filterDim-1)*upscale) + 1)) / convolutionStride`
with C-style integer division (truncation toward zero, hence `Int.tdiv`). -/
def cudnnGetConvolutionNdForwardOutputDim (conv : ConvDesc) (input_dims : Shape5)
    (filt : FilterDesc) : Shape5 :=
  ⟨input_dims.d0,
   filt.k,
   1 + Int.tdiv (input_dims.d2 + 2 * conv.padX - (((filt.x - 1) * conv.upscaleX) + 1)) conv.strideX,
   1 + Int.tdiv (input_dims.d3 + 2 * conv.padY - (((filt.y - 1) * conv.upscaleY) + 1)) conv.strideY,
   1 + Int.tdiv (input_dims.d4 + 2 * conv.padZ - (((filt.z - 1) * conv.upscaleZ) + 1)) conv.strideZ⟩

/-- Embedding of `CuDNN3DConvolutionComponent::GetOutputDims` (source lines
384-423): build a synthetic single-example input descriptor (batch 1) with
the activation-order strides, ask the primitive for the output dims, assert
the returned batch is 1 and the returned channel count is `num_filters_`,
and return the three spatial extents. -/
def GetOutputDims (c : CuDNN3DConvolutionComponent) : Except Fatal (Int × Int × Int) :=
  match FillInputStrides c.input_vectorization_
      ⟨1, c.input_num_filters_, c.input_x_dim_, c.input_y_dim_, c.input_z_dim_⟩ with
  | .error e => .error e
  | .ok _input_strides =>
    let output_dims := cudnnGetConvolutionNdForwardOutputDim c.conv_desc_
      ⟨1, c.input_num_filters_, c.input_x_dim_, c.input_y_dim_, c.input_z_dim_⟩
      c.filter_desc_
    if output_dims.d0 = 1 then
      if output_dims.d1 = c.num_filters_ then
        .ok (output_dims.d2, output_dims.d3, output_dims.d4)
      else .error .assertFailed
    else .error .assertFailed

/-- Embedding of `CuDNN3DConvolutionComponent::OutputDim` (source lines
425-431): `num_filters_` times the product of the three spatial output
extents (`std::accumulate` with initial value 1). -/
def OutputDim (c : CuDNN3DConvolutionComponent) : Except Fatal Int :=
  match GetOutputDims c with
  | .error e => .error e
  | .ok (ox, oy, oz) => .ok (c.num_filters_ * (1 * ox * oy * oz))

/-- Shape metadata of a `CuMatrixBase` argument (rows, columns, row stride);
the device data itself is behind the abstracted convolution primitive. -/
structure MatShape where
  (numRows numCols stride : Int)
deriving DecidableEq

/-- Embedding of `CuDNN3DConvolutionComponent::Propagate` (source lines
434-516).  In order: the NaN guards `KALDI_ASSERT(f == f)` /
`KALDI_ASSERT(b == b)` on the Frobenius norm of the filter and the sum of
the bias, the stride/column contiguity asserts, input-descriptor stride
derivation, output shape inference, the output stride assert, and finally
the external forward-convolution + bias-add primitive, abstracted as `prim`
applied to the derived input and output stride arrays. -/
def Propagate (sq : ℚ → ℚ) (c : CuDNN3DConvolutionComponent)
    (inMat outMat : MatShape)
    (prim : Strides5 → Strides5 → Except Fatal Unit) : Except Fatal Unit :=
  let f := CuMat.frobeniusNorm sq c.filter_params_
  if f.ieeeEq f then
    let b := sumBF c.bias_params_
    if b.ieeeEq b then
      if inMat.numCols = inMat.stride then
        if outMat.numCols = outMat.stride then
          if c.input_num_filters_ * c.input_z_dim_ * c.input_y_dim_ * c.input_x_dim_
              = inMat.stride then
            match FillInputStrides c.input_vectorization_
                ⟨inMat.numRows, c.input_num_filters_, c.input_x_dim_, c.input_y_dim_,
                 c.input_z_dim_⟩ with
            | .error e => .error e
            | .ok input_strides =>
              match GetOutputDims c with
              | .error e => .error e
              | .ok (ox, oy, oz) =>
                if outMat.stride = c.num_filters_ * ox * oy * oz then
                  prim input_strides
                    (FillOutputStrides c.input_vectorization_
                      ⟨outMat.numRows, c.num_filters_, ox, oy, oz⟩)
                else .error .assertFailed
          else .error .assertFailed
        else .error .assertFailed
      else .error .assertFailed
    else .error .assertFailed
  else .error .assertFailed

/-- Embedding of `CuDNN3DConvolutionComponent::Backprop` (source lines
518-619): the same NaN guards, output shape inference, the layout asserts
on `in_value` and `out_deriv`, derivation of the activation-order strides
for `out_deriv`, of the fixed `NCXYZ` strides it is transformed into for
the backward-data primitive, and of the input strides; the tensor
transform, backward-data and update primitives are abstracted as `prim`
applied to the three derived stride arrays. -/
def Backprop (sq : ℚ → ℚ) (c : CuDNN3DConvolutionComponent)
    (in_value out_deriv : MatShape)
    (prim : Strides5 → Strides5 → Strides5 → Except Fatal Unit) : Except Fatal Unit :=
  let f := CuMat.frobeniusNorm sq c.filter_params_
  if f.ieeeEq f then
    let b := sumBF c.bias_params_
    if b.ieeeEq b then
      match GetOutputDims c with
      | .error e => .error e
      | .ok (ox, oy, oz) =>
        if in_value.numCols = in_value.stride then
          if in_value.numCols
              = c.input_num_filters_ * c.input_z_dim_ * c.input_y_dim_ * c.input_x_dim_ then
            if out_deriv.stride = out_deriv.numCols then
              if out_deriv.stride = c.num_filters_ * ox * oy * oz then
                let out_deriv_dims : Shape5 :=
                  ⟨out_deriv.numRows, c.num_filters_, ox, oy, oz⟩
                let out_deriv_strides :=
                  FillOutputStrides c.input_vectorization_ out_deriv_dims
                let out_deriv_strides_ncxyz := array_strides_NCXYZ out_deriv_dims
                match FillInputStrides c.input_vectorization_
                    ⟨in_value.numRows, c.input_num_filters_, c.input_x_dim_,
                     c.input_y_dim_, c.input_z_dim_⟩ with
                | .error e => .error e
                | .ok in_strides =>
                  prim out_deriv_strides out_deriv_strides_ncxyz in_strides
              else .error .assertFailed
            else .error .assertFailed
          else .error .assertFailed
        else .error .assertFailed
    else .error .assertFailed
  else .error .assertFailed

/-- Tag strings of the binary format, one constructor per literal tag the
source writes/expects (e.g. `inputXDim` stands for `"<InputXDim>"`,
`closingTag` for `"</CuDNN3DConvolutionComponent>"`). -/
inductive Tag where
  | inputXDim | inputYDim | inputZDim
  | inputNumFilters | outputNumFilters
  | filterXDim | filterYDim | filterZDim
  | filterXPadding | filterYPadding | filterZPadding
  | filterXStride | filterYStride | filterZStride
  | filterXUpscale | filterYUpscale | filterZUpscale
  | inputVectorization | filterParams | biasParams | isGradient
  | closingTag
deriving DecidableEq

/-- One item of the tagged binary stream.  `updatableHeader` stands for the
inherited `WriteUpdatableCommon`/`ReadUpdatableCommon` fragment (opening
type tag + learning rate). -/
inductive Token where
  | updatableHeader (learning_rate : BF)
  | tag (t : Tag)
  | int (i : Int)
  | mat (m : CuMat)
  | vec (v : List BF)
  | boolv (b : Bool)
deriving DecidableEq

/-- Embedding of `CuDNN3DConvolutionComponent::Write` (source lines
712-787).  Kernel dims are re-derived from the live filter descriptor and
asserted against the cached channel counts
(`KALDI_ASSERT(filter_dims[1] == input_num_filters_)`,
`KALDI_ASSERT(filter_dims[0] == num_filters_)`); padding/stride/upscale and
the mode are re-derived from the live convolution descriptor
(`KALDI_ASSERT(mode == CUDNN_CROSS_CORRELATION)`).  Descriptors themselves
are never written, only the integers read back out of them.  The token
sequence itself is factored into `writeTokens`. -/
def writeTokens (c : CuDNN3DConvolutionComponent) : List Token :=
  [.updatableHeader c.learning_rate_,
   .tag .inputXDim, .int c.input_x_dim_,
   .tag .inputYDim, .int c.input_y_dim_,
   .tag .inputZDim, .int c.input_z_dim_,
   .tag .inputNumFilters, .int c.input_num_filters_,
   .tag .outputNumFilters, .int c.num_filters_,
   .tag .filterXDim, .int c.filter_desc_.x,
   .tag .filterYDim, .int c.filter_desc_.y,
   .tag .filterZDim, .int c.filter_desc_.z,
   .tag .filterXPadding, .int c.conv_desc_.padX,
   .tag .filterYPadding, .int c.conv_desc_.padY,
   .tag .filterZPadding, .int c.conv_desc_.padZ,
   .tag .filterXStride, .int c.conv_desc_.strideX,
   .tag .filterYStride, .int c.conv_desc_.strideY,
   .tag .filterZStride, .int c.conv_desc_.strideZ,
   .tag .filterXUpscale, .int c.conv_desc_.upscaleX,
   .tag .filterYUpscale, .int c.conv_desc_.upscaleY,
   .tag .filterZUpscale, .int c.conv_desc_.upscaleZ,
   .tag .inputVectorization, .int c.input_vectorization_,
   .tag .filterParams, .mat c.filter_params_,
   .tag .biasParams, .vec c.bias_params_,
   .tag .isGradient, .boolv c.is_gradient_,
   .tag .closingTag]

/-- The assert-guarded emission of `Write`: see `writeTokens`. -/
def Write (c : CuDNN3DConvolutionComponent) : Except Fatal (List Token) :=
  if c.filter_desc_.c = c.input_num_filters_ then
    if c.filter_desc_.k = c.num_filters_ then
      if c.conv_desc_.mode = ConvMode.crossCorrelation then
        .ok (writeTokens c)
      else .error .assertFailed
    else .error .assertFailed
  else .error .assertFailed

/-- Default algorithm enumerators chosen statically in the default
constructor (`CUDNN_CONVOLUTION_FWD_ALGO_IMPLICIT_GEMM`,
`CUDNN_CONVOLUTION_BWD_FILTER_ALGO_0`, `CUDNN_CONVOLUTION_BWD_DATA_ALGO_0`);
their numeric identity is irrelevant, only that a fresh component gets
them. -/
def defaultForwardAlgo : Nat := 0

/-- See `defaultForwardAlgo`. -/
def defaultBackwardFilterAlgo : Nat := 0

/-- See `defaultForwardAlgo`. -/
def defaultBackwardDataAlgo : Nat := 0

/-- Embedding of `CuDNN3DConvolutionComponent::Read` (source lines 651-710)
reading into a freshly default-constructed component: expect each tag and
read each value in the fixed order, store the raw `<InputVectorization>`
int32 into `input_vectorization_` via `static_cast` with no validation,
and finally rebuild the three descriptors by calling `InitDescriptor` with
the hyperparameters just read (descriptors are never read from the
stream).  A tag/value out of order is an `ExpectToken` stream error. -/
def Read (stream : List Token) : Except Fatal CuDNN3DConvolutionComponent :=
  match stream with
  | .updatableHeader lr ::
    .tag .inputXDim :: .int input_x_dim ::
    .tag .inputYDim :: .int input_y_dim ::
    .tag .inputZDim :: .int input_z_dim ::
    .tag .inputNumFilters :: .int input_num_filters ::
    .tag .outputNumFilters :: .int num_filters ::
    .tag .filterXDim :: .int filt_x_dim ::
    .tag .filterYDim :: .int filt_y_dim ::
    .tag .filterZDim :: .int filt_z_dim ::
    .tag .filterXPadding :: .int pad_x ::
    .tag .filterYPadding :: .int pad_y ::
    .tag .filterZPadding :: .int pad_z ::
    .tag .filterXStride :: .int stride_x ::
    .tag .filterYStride :: .int stride_y ::
    .tag .filterZStride :: .int stride_z ::
    .tag .filterXUpscale :: .int upscale_x ::
    .tag .filterYUpscale :: .int upscale_y ::
    .tag .filterZUpscale :: .int upscale_z ::
    .tag .inputVectorization :: .int input_vectorization ::
    .tag .filterParams :: .mat filter_params ::
    .tag .biasParams :: .vec bias_params ::
    .tag .isGradient :: .boolv is_gradient ::
    .tag .closingTag :: [] =>
    match InitDescriptor num_filters input_num_filters input_vectorization
        filt_x_dim filt_y_dim filt_z_dim
        stride_x stride_y stride_z
        pad_x pad_y pad_z
        upscale_x upscale_y upscale_z with
    | .error e => .error e
    | .ok (filter_desc, conv_desc, bias_desc) =>
      .ok { learning_rate_ := lr,
            input_x_dim_ := input_x_dim,
            input_y_dim_ := input_y_dim,
            input_z_dim_ := input_z_dim,
            input_num_filters_ := input_num_filters,
            num_filters_ := num_filters,
            filter_params_ := filter_params,
            bias_params_ := bias_params,
            work_space_ := none,
            work_space_size_ := 0,
            is_gradient_ := is_gradient,
            input_vectorization_ := input_vectorization,
            filter_desc_ := filter_desc,
            bias_desc_ := bias_desc,
            conv_desc_ := conv_desc,
            forward_algo_ := defaultForwardAlgo,
            backward_filter_algo_ := defaultBackwardFilterAlgo,
            backward_data_algo_ := defaultBackwardDataAlgo }
  | _ => .error .badStream

/-- Embedding of `CuDNN3DConvolutionComponent::NumParameters` (source lines
856-858): `filter_params_.NumCols() * filter_params_.NumRows() +
bias_params_.Dim()`. -/
def NumParameters (c : CuDNN3DConvolutionComponent) : Nat :=
  c.filter_params_.numCols * c.filter_params_.numRows + c.bias_params_.length

/-- Embedding of `CuDNN3DConvolutionComponent::Vectorize` (source lines
873-878).  `params` is the caller's pre-allocated vector; only its length
matters (`KALDI_ASSERT(params->Dim() == this->NumParameters())`), its
contents are overwritten by the filter rows followed by the bias. -/
def Vectorize (c : CuDNN3DConvolutionComponent) (params : List BF) :
    Except Fatal (List BF) :=
  if params.length = NumParameters c then
    .ok (c.filter_params_.rows.flatten ++ c.bias_params_)
  else .error .assertFailed

/-- Row-major refill of an `n × k` matrix from a flat vector, as performed
by `CuMatrixBase::CopyRowsFromVec` on a `kStrideEqualNumCols` matrix. -/
def chunkRows : Nat → Nat → List BF → List (List BF)
  | 0, _, _ => []
  | n + 1, k, v => v.take k :: chunkRows n k (v.drop k)

/-- Embedding of `CuDNN3DConvolutionComponent::UnVectorize` (source lines
880-885): after the same length assert, the first
`NumRows()*NumCols()` entries refill the filter row-major and the next
`bias_params_.Dim()` entries refill the bias. -/
def UnVectorize (c : CuDNN3DConvolutionComponent) (params : List BF) :
    Except Fatal CuDNN3DConvolutionComponent :=
  if params.length = NumParameters c then
    let num_filter_params := c.filter_params_.numRows * c.filter_params_.numCols
    .ok { c with
          filter_params_ :=
            { c.filter_params_ with
              rows := chunkRows c.filter_params_.numRows c.filter_params_.numCols
                        (params.take num_filter_params) },
          bias_params_ := (params.drop num_filter_params).take c.bias_params_.length }
  else .error .assertFailed

/-- Pointwise `v + alpha * w` (modelled collaborator `CuVectorBase::AddVec`). -/
def addVec (alpha : BF) (v w : List BF) : List BF :=
  (v.zip w).map fun p => p.1.add (alpha.mul p.2)

/-- Pointwise `m + alpha * o` (modelled collaborator `CuMatrixBase::AddMat`). -/
def addMat (alpha : BF) (m o : CuMat) : CuMat :=
  ⟨m.numRows, m.numCols, (m.rows.zip o.rows).map fun p => addVec alpha p.1 p.2⟩

/-- Entrywise dot product of two matrices (modelled collaborator
`TraceMatMat(A, B, kTrans)`). -/
def TraceMatMatTrans (a b : CuMat) : BF :=
  sumBF ((a.rows.flatten.zip b.rows.flatten).map fun p => p.1.mul p.2)

/-- Dot product of two vectors (modelled collaborator `VecVec`). -/
def VecVec (v w : List BF) : BF :=
  sumBF ((v.zip w).map fun p => p.1.mul p.2)

/-- Embedding of `CuDNN3DConvolutionComponent::Add` (source lines 865-871).
The argument is the result of
`dynamic_cast<const CuDNN3DConvolutionComponent*>(&other_in)`: `none` when
`other_in` is not of this concrete type.  The source checks
`KALDI_ASSERT(other != NULL)` before touching the pointer. -/
def Add (c : CuDNN3DConvolutionComponent) (alpha : BF)
    (other : Option CuDNN3DConvolutionComponent) :
    Except Fatal CuDNN3DConvolutionComponent :=
  match other with
  | some o => .ok { c with
      filter_params_ := addMat alpha c.filter_params_ o.filter_params_,
      bias_params_ := addVec alpha c.bias_params_ o.bias_params_ }
  | none => .error .assertFailed

/-- Embedding of `CuDNN3DConvolutionComponent::DotProduct` (source lines
798-803).  The argument is again the `dynamic_cast` result, but unlike
`Add` the source performs NO null check and immediately dereferences the
pointer (`other->filter_params_`), so a mismatched concrete type is a null
dereference, not a `KALDI_ASSERT` failure. -/
def DotProduct (c : CuDNN3DConvolutionComponent)
    (other : Option CuDNN3DConvolutionComponent) : Except Fatal BF :=
  match other with
  | some o => .ok ((TraceMatMatTrans c.filter_params_ o.filter_params_).add
                     (VecVec c.bias_params_ o.bias_params_))
  | none => .error .nullDeref

/-- Device allocator state: a fresh-buffer counter.  `CuDevice::Malloc` is
modelled as handing out the next unused buffer id. -/
structure Alloc where
  next : Nat
deriving DecidableEq

/-- Modelled collaborator `CuDevice::Malloc`: returns a fresh buffer id. -/
def CuDeviceMalloc (a : Alloc) (size : Nat) : Nat × Alloc :=
  (a.next, ⟨a.next + 1⟩)

/-- Embedding of the copy constructor
`CuDNN3DConvolutionComponent(const CuDNN3DConvolutionComponent&)` (source
lines 100-125): every field is copied (descriptors via the deep-cloning
`cudnn::Copy*Desc` helpers, which in this value model is plain equality of
contents), except the workspace pointer, which is initialised to `NULL` and
then — in the constructor body, before the clone is ever used — replaced by
a freshly `Malloc`ed buffer of the copied `work_space_size_` whenever that
size is nonzero. -/
def CopyConstructor (c : CuDNN3DConvolutionComponent) (a : Alloc) :
    CuDNN3DConvolutionComponent × Alloc :=
  let base : CuDNN3DConvolutionComponent := { c with work_space_ := none }
  if c.work_space_size_ ≠ 0 then
    let m := CuDeviceMalloc a c.work_space_size_
    ({ base with work_space_ := some m.1 }, m.2)
  else (base, a)

/-- Embedding of `CuDNN3DConvolutionComponent::Copy` (source lines 646-649):
`new CuDNN3DConvolutionComponent(*this)`. -/
def Copy (c : CuDNN3DConvolutionComponent) (a : Alloc) :
    CuDNN3DConvolutionComponent × Alloc :=
  CopyConstructor c a

/-- Configuration keys consumed by the random-initialization branch of
`InitFromConfig` (source lines 351-368); `none` means the key is absent
from the config line.  Stddev values are modelled as exact reals, with
`Real.sqrt` standing for the float `std::sqrt`. -/
structure RandomInitConfigLine where
  param_stddev : Option ℝ
  bias_stddev : Option ℝ

/-- Embedding of the stddev selection in `InitFromConfig` (source lines
356-359): `filter_input_dim = filt_x_dim * filt_y_dim * input_z_dim`,
`param_stddev = 1.0 / sqrt(filter_input_dim)` and `bias_stddev = 1.0`
unless the config line overrides them (`cfl->GetValue` leaves the defaults
in place when the key is absent). -/
noncomputable def InitFromConfigStddevs (cfl : RandomInitConfigLine)
    (filt_x_dim filt_y_dim input_z_dim : Int) : ℝ × ℝ :=
  let filter_input_dim : Int := filt_x_dim * filt_y_dim * input_z_dim
  let param_stddev : ℝ := match cfl.param_stddev with
    | some v => v
    | none => 1 / Real.sqrt (filter_input_dim : ℝ)
  let bias_stddev : ℝ := match cfl.bias_stddev with
    | some v => v
    | none => 1
  (param_stddev, bias_stddev)

/-- Embedding of the stddev guard in the random-init `Init` overload (source
line 253): `KALDI_ASSERT(param_stddev >= 0.0 && bias_stddev >= 0.0)`. -/
noncomputable def InitRandomStddevCheck (param_stddev bias_stddev : ℝ) :
    Except Fatal Unit :=
  if param_stddev ≥ 0 ∧ bias_stddev ≥ 0 then .ok () else .error .assertFailed

/-- Concrete well-formed component used to instantiate witnesses: a minimal
1×1×1 input, one input and one output channel, 1×1×1 kernel, unit stride
and upscale, no padding, `kZyx` activation order, with descriptors exactly
as `InitDescriptor` builds them. -/
def exampleComponent : CuDNN3DConvolutionComponent :=
  { learning_rate_ := .fin 1,
    input_x_dim_ := 1, input_y_dim_ := 1, input_z_dim_ := 1,
    input_num_filters_ := 1, num_filters_ := 1,
    filter_params_ := ⟨1, 1, [[.fin 2]]⟩,
    bias_params_ := [.fin 3],
    work_space_ := none,
    work_space_size_ := 0,
    is_gradient_ := false,
    input_vectorization_ := kZyx,
    filter_desc_ := ⟨1, 1, 1, 1, 1⟩,
    bias_desc_ := ⟨⟨1, 1, 1, 1, 1⟩, ⟨1, 1, 1, 1, 1⟩⟩,
    conv_desc_ := ⟨0, 0, 0, 1, 1, 1, 1, 1, 1, .crossCorrelation⟩,
    forward_algo_ := defaultForwardAlgo,
    backward_filter_algo_ := defaultBackwardFilterAlgo,
    backward_data_algo_ := defaultBackwardDataAlgo }

/-- `exampleComponent` after some use: a cached nonzero workspace size and
an allocated buffer (id 0). -/
def exampleComponentWS : CuDNN3DConvolutionComponent :=
  { exampleComponent with work_space_size_ := 16, work_space_ := some 0 }

/-- `exampleComponent` with a NaN planted in the filter parameters. -/
def exampleComponentNaN : CuDNN3DConvolutionComponent :=
  { exampleComponent with filter_params_ := ⟨1, 1, [[.nan]]⟩ }

/-- Serialized stream identical to `Write exampleComponent`, except the
`<InputVectorization>` value is the unsupported int32 7. -/
def exampleStreamBadVectorization : List Token :=
  [.updatableHeader (.fin 1),
   .tag .inputXDim, .int 1,
   .tag .inputYDim, .int 1,
   .tag .inputZDim, .int 1,
   .tag .inputNumFilters, .int 1,
   .tag .outputNumFilters, .int 1,
   .tag .filterXDim, .int 1,
   .tag .filterYDim, .int 1,
   .tag .filterZDim, .int 1,
   .tag .filterXPadding, .int 0,
   .tag .filterYPadding, .int 0,
   .tag .filterZPadding, .int 0,
   .tag .filterXStride, .int 1,
   .tag .filterYStride, .int 1,
   .tag .filterZStride, .int 1,
   .tag .filterXUpscale, .int 1,
   .tag .filterYUpscale, .int 1,
   .tag .filterZUpscale, .int 1,
   .tag .inputVectorization, .int 7,
   .tag .filterParams, .mat ⟨1, 1, [[.fin 2]]⟩,
   .tag .biasParams, .vec [.fin 3],
   .tag .isGradient, .boolv false,
   .tag .closingTag]

end Kaldi

namespace Kaldi

/-! ## Helper lemmas -/

theorem sumBF_eq_nan_of_mem {l : List BF} (h : BF.nan ∈ l) : sumBF l = .nan := by
  induction l with
  | nil => cases h
  | cons a t ih =>
    rcases List.mem_cons.mp h with h1 | h2
    · subst h1
      show BF.add BF.nan (sumBF t) = BF.nan
      cases sumBF t <;> rfl
    · show BF.add a (sumBF t) = BF.nan
      rw [ih h2]
      cases a <;> rfl

theorem sumBF_ne_nan {l : List BF} (h : BF.nan ∉ l) : ∃ q, sumBF l = .fin q := by
  induction l with
  | nil => exact ⟨0, rfl⟩
  | cons a t ih =>
    obtain ⟨q, hq⟩ := ih (fun hm => h (List.mem_cons_of_mem a hm))
    cases a with
    | nan => exact absurd (List.mem_cons_self _ _) h
    | fin p =>
      refine ⟨p + q, ?_⟩
      show BF.add (.fin p) (sumBF t) = .fin (p + q)
      rw [hq]
      rfl

theorem ieeeEq_self_fin (q : ℚ) : (BF.fin q).ieeeEq (.fin q) = true := by
  simp [BF.ieeeEq]

theorem frobeniusNorm_eq_nan_of_mem (sq : ℚ → ℚ) {m : CuMat}
    (h : BF.nan ∈ m.rows.flatten) : m.frobeniusNorm sq = .nan := by
  unfold CuMat.frobeniusNorm
  have hmem : BF.nan ∈ m.rows.flatten.map (fun x => x.mul x) :=
    List.mem_map.mpr ⟨.nan, h, rfl⟩
  rw [sumBF_eq_nan_of_mem hmem]
  rfl

theorem frobeniusNorm_ne_nan (sq : ℚ → ℚ) {m : CuMat}
    (h : BF.nan ∉ m.rows.flatten) : ∃ q, m.frobeniusNorm sq = .fin q := by
  unfold CuMat.frobeniusNorm
  have hmem : BF.nan ∉ m.rows.flatten.map (fun x => x.mul x) := by
    intro hm
    obtain ⟨x, hx, hfx⟩ := List.mem_map.mp hm
    cases x with
    | nan => exact h hx
    | fin p => exact BF.noConfusion hfx
  obtain ⟨q, hq⟩ := sumBF_ne_nan hmem
  exact ⟨sq q, by rw [hq]; rfl⟩

theorem chunkRows_flatten (k : Nat) :
    ∀ (rows : List (List BF)), (∀ r ∈ rows, r.length = k) →
      ∀ rest, chunkRows rows.length k (rows.flatten ++ rest) = rows := by
  intro rows
  induction rows with
  | nil => intro _ _; rfl
  | cons r t ih =>
    intro hlen rest
    have hr : r.length = k := hlen r (List.mem_cons_self r t)
    have ht : ∀ s ∈ t, s.length = k := fun s hs => hlen s (List.mem_cons_of_mem r hs)
    have h1 : (r :: t).flatten ++ rest = r ++ (t.flatten ++ rest) := by
      simp
    rw [h1, List.length_cons]
    show (r ++ (t.flatten ++ rest)).take k :: chunkRows t.length k ((r ++ (t.flatten ++ rest)).drop k)
        = r :: t
    rw [List.take_left' hr, List.drop_left' hr, ih ht rest]

theorem flatten_length_of_wf (k : Nat) :
    ∀ (rows : List (List BF)), (∀ r ∈ rows, r.length = k) →
      rows.flatten.length = rows.length * k := by
  intro rows
  induction rows with
  | nil => intro _; simp
  | cons r t ih =>
    intro hlen
    have hr : r.length = k := hlen r (List.mem_cons_self r t)
    have ht : ∀ s ∈ t, s.length = k := fun s hs => hlen s (List.mem_cons_of_mem r hs)
    show (r ++ t.flatten).length = (t.length + 1) * k
    rw [List.length_append, hr, ih ht]
    ring

/-! ## Claim C1 -/

/-- Claim C1 counterexample: for the shape `[N, C, X, Y, Z] = [1, 2, 3, 4, 5]`,
the `kZyx` ("zyx", ChannelMajor) stride deriver returns
`[C·X·Y·Z, X·Y·Z, Y·Z, Z, 1] = [120, 60, 20, 5, 1]`, not the
`[C·X·Y·Z, 1, C·Y·Z, C·Z, C] = [120, 1, 40, 10, 2]` vector the claim
asserts. -/
theorem C1_counterexample :
    FillInputStrides kZyx ⟨1, 2, 3, 4, 5⟩ = .ok (array_strides_NCXYZ ⟨1, 2, 3, 4, 5⟩) ∧
    array_strides_NCXYZ ⟨1, 2, 3, 4, 5⟩ = ⟨120, 60, 20, 5, 1⟩ ∧
    (⟨120, 60, 20, 5, 1⟩ : Strides5) ≠ ⟨120, 1, 40, 10, 2⟩ :=
  ⟨rfl, rfl, by decide⟩

/-- Claim C1 (amended): for every 5-element shape `[N, C, X, Y, Z]`, the
stride deriver for the ChannelMajor (`zyx`) activation order returns the
stride vector `[C·X·Y·Z, X·Y·Z, Y·Z, Z, 1]`, i.e.
`offset(n,c,x,y,z) = n·s0 + c·s1 + x·s2 + y·s3 + z·s4` equals the packed
row-major rank for memory order `N, C, X, Y, Z` (channel outermost after
batch, `z` fastest-varying). -/
theorem C1_zyx_strides (N C X Y Z n c x y z : Int) :
    FillInputStrides kZyx ⟨N, C, X, Y, Z⟩ = .ok ⟨C * X * Y * Z, X * Y * Z, Y * Z, Z, 1⟩ ∧
    offset5 (array_strides_NCXYZ ⟨N, C, X, Y, Z⟩) n c x y z =
      (((n * C + c) * X + x) * Y + y) * Z + z := by
  refine ⟨rfl, ?_⟩
  simp only [array_strides_NCXYZ, offset5]
  ring

/-! ## Claim C2 -/

/-- Claim C2 counterexample: for the shape `[1, 2, 3, 4, 5]` the output
stride function returns `[120, 1, 40, 10, 2]` (channel-innermost
`N,X,Y,Z,C` packing), not the channel-outermost fully packed `N,C,X,Y,Z`
strides `[120, 60, 20, 5, 1]` the claim asserts. -/
theorem C2_counterexample :
    FillOutputStrides kZyx ⟨1, 2, 3, 4, 5⟩ = ⟨120, 1, 40, 10, 2⟩ ∧
    (⟨120, 1, 40, 10, 2⟩ : Strides5) ≠ ⟨120, 60, 20, 5, 1⟩ :=
  ⟨rfl, by decide⟩

/-- Claim C2 (amended): for every shape, the stride function used for the
convolution primitive's output tensor is independent of the configured
activation vectorization order and always produces the
`array_strides_NXYZC` packing — channel *innermost*, fully packed in
memory order `N, X, Y, Z, C`: the offset form equals the packed row-major
rank for that axis nesting. -/
theorem C2_output_strides (iv iv2 N C X Y Z n c x y z : Int) :
    FillOutputStrides iv ⟨N, C, X, Y, Z⟩ = FillOutputStrides iv2 ⟨N, C, X, Y, Z⟩ ∧
    FillOutputStrides iv ⟨N, C, X, Y, Z⟩ = array_strides_NXYZC ⟨N, C, X, Y, Z⟩ ∧
    offset5 (array_strides_NXYZC ⟨N, C, X, Y, Z⟩) n c x y z =
      (((n * X + x) * Y + y) * Z + z) * C + c := by
  refine ⟨rfl, rfl, ?_⟩
  simp only [array_strides_NXYZC, offset5]
  ring

/-! ## Claim C3 -/

/-- Claim C3: for every component whose descriptors are consistent (the
filter descriptor's leading dim equals `num_filters_`, as `InitDescriptor`
guarantees) and whose vectorization order is supported, `GetOutputDims`
asserts the primitive's returned batch dim is 1 and its returned channel
count equals `num_filters_`, returns exactly the three spatial extents of
the primitive's shape-inference rule, and `OutputDim` returns
`num_filters_ × outX × outY × outZ`; if the returned channel count differs
from `num_filters_` the assertion aborts instead. -/
theorem C3_output_shape (c : CuDNN3DConvolutionComponent)
    (hv : c.input_vectorization_ = kZyx ∨ c.input_vectorization_ = kYzx) :
    (c.filter_desc_.k = c.num_filters_ →
      GetOutputDims c = .ok
        (1 + Int.tdiv (c.input_x_dim_ + 2 * c.conv_desc_.padX
            - (((c.filter_desc_.x - 1) * c.conv_desc_.upscaleX) + 1)) c.conv_desc_.strideX,
         1 + Int.tdiv (c.input_y_dim_ + 2 * c.conv_desc_.padY
            - (((c.filter_desc_.y - 1) * c.conv_desc_.upscaleY) + 1)) c.conv_desc_.strideY,
         1 + Int.tdiv (c.input_z_dim_ + 2 * c.conv_desc_.padZ
            - (((c.filter_desc_.z - 1) * c.conv_desc_.upscaleZ) + 1)) c.conv_desc_.strideZ) ∧
      OutputDim c = .ok (c.num_filters_ *
        ((1 + Int.tdiv (c.input_x_dim_ + 2 * c.conv_desc_.padX
            - (((c.filter_desc_.x - 1) * c.conv_desc_.upscaleX) + 1)) c.conv_desc_.strideX) *
         (1 + Int.tdiv (c.input_y_dim_ + 2 * c.conv_desc_.padY
            - (((c.filter_desc_.y - 1) * c.conv_desc_.upscaleY) + 1)) c.conv_desc_.strideY) *
         (1 + Int.tdiv (c.input_z_dim_ + 2 * c.conv_desc_.padZ
            - (((c.filter_desc_.z - 1) * c.conv_desc_.upscaleZ) + 1)) c.conv_desc_.strideZ))))
    ∧ (c.filter_desc_.k ≠ c.num_filters_ → GetOutputDims c = .error .assertFailed) := by
  have hfs : ∃ st, FillInputStrides c.input_vectorization_
      ⟨1, c.input_num_filters_, c.input_x_dim_, c.input_y_dim_, c.input_z_dim_⟩ = .ok st := by
    rcases hv with h | h
    · exact ⟨_, by rw [h]; rfl⟩
    · exact ⟨_, by rw [h]; rfl⟩
  obtain ⟨st, hst⟩ := hfs
  refine ⟨fun hk => ⟨?_, ?_⟩, fun hk => ?_⟩
  · simp [GetOutputDims, hst, cudnnGetConvolutionNdForwardOutputDim, hk]
  · simp [OutputDim, GetOutputDims, hst, cudnnGetConvolutionNdForwardOutputDim, hk, one_mul]
  · simp [GetOutputDims, hst, cudnnGetConvolutionNdForwardOutputDim, hk]

/-- Claim C3 witness at `exampleComponent`. -/
theorem C3_output_shape_witness :
    GetOutputDims exampleComponent = .ok (1, 1, 1) ∧
    OutputDim exampleComponent = .ok 1 := by
  have h := (C3_output_shape exampleComponent (Or.inl rfl)).1 rfl
  exact ⟨h.1, h.2⟩

/-! ## Claim C4 -/

/-- Claim C4: for every component whose descriptors are consistent with its
cached fields (precisely: they are what `InitDescriptor` builds from those
fields, as holds after `Init` or `Read`), `Write` succeeds and `Read` of
the written stream succeeds into a fresh component with identical
hyperparameters (input dims, channel counts, kernel dims, padding, stride,
upscale, vectorization order, is-gradient flag, learning rate), bit-identical
filter and bias tensors, descriptors reconstructed by `InitDescriptor`
after reading (equal to the originals; they are never persisted — no
`Token` constructor can carry one), a fresh null workspace, and the same
output shape. -/
theorem C4_serialization_roundtrip (c : CuDNN3DConvolutionComponent)
    (hdesc : InitDescriptor c.num_filters_ c.input_num_filters_ c.input_vectorization_
        c.filter_desc_.x c.filter_desc_.y c.filter_desc_.z
        c.conv_desc_.strideX c.conv_desc_.strideY c.conv_desc_.strideZ
        c.conv_desc_.padX c.conv_desc_.padY c.conv_desc_.padZ
        c.conv_desc_.upscaleX c.conv_desc_.upscaleY c.conv_desc_.upscaleZ
      = .ok (c.filter_desc_, c.conv_desc_, c.bias_desc_)) :
    ∃ c2, Write c = .ok (writeTokens c) ∧ Read (writeTokens c) = .ok c2 ∧
      c2.learning_rate_ = c.learning_rate_ ∧
      c2.input_x_dim_ = c.input_x_dim_ ∧
      c2.input_y_dim_ = c.input_y_dim_ ∧
      c2.input_z_dim_ = c.input_z_dim_ ∧
      c2.input_num_filters_ = c.input_num_filters_ ∧
      c2.num_filters_ = c.num_filters_ ∧
      c2.input_vectorization_ = c.input_vectorization_ ∧
      c2.is_gradient_ = c.is_gradient_ ∧
      c2.filter_params_ = c.filter_params_ ∧
      c2.bias_params_ = c.bias_params_ ∧
      c2.filter_desc_ = c.filter_desc_ ∧
      c2.conv_desc_ = c.conv_desc_ ∧
      c2.bias_desc_ = c.bias_desc_ ∧
      c2.work_space_ = none ∧
      c2.work_space_size_ = 0 ∧
      GetOutputDims c2 = GetOutputDims c := by
  have hI := hdesc
  unfold InitDescriptor at hI
  dsimp only at hI
  rcases hFill : FillInputStrides c.input_vectorization_ ⟨1, c.num_filters_, 1, 1, 1⟩ with
    e | st
  · rw [hFill] at hI
    exact Except.noConfusion hI
  · rw [hFill] at hI
    simp only [Except.ok.injEq, Prod.mk.injEq] at hI
    obtain ⟨hfd, hcd, hbd⟩ := hI
    have hc : c.filter_desc_.c = c.input_num_filters_ := by rw [← hfd]
    have hk : c.filter_desc_.k = c.num_filters_ := by rw [← hfd]
    have hmode : c.conv_desc_.mode = ConvMode.crossCorrelation := by rw [← hcd]
    have hw : Write c = .ok (writeTokens c) := by
      unfold Write
      rw [if_pos hc, if_pos hk, if_pos hmode]
    have hr : Read (writeTokens c) =
        (match InitDescriptor c.num_filters_ c.input_num_filters_ c.input_vectorization_
            c.filter_desc_.x c.filter_desc_.y c.filter_desc_.z
            c.conv_desc_.strideX c.conv_desc_.strideY c.conv_desc_.strideZ
            c.conv_desc_.padX c.conv_desc_.padY c.conv_desc_.padZ
            c.conv_desc_.upscaleX c.conv_desc_.upscaleY c.conv_desc_.upscaleZ with
         | .error e => .error e
         | .ok (filter_desc, conv_desc, bias_desc) =>
           .ok { learning_rate_ := c.learning_rate_,
                 input_x_dim_ := c.input_x_dim_,
                 input_y_dim_ := c.input_y_dim_,
                 input_z_dim_ := c.input_z_dim_,
                 input_num_filters_ := c.input_num_filters_,
                 num_filters_ := c.num_filters_,
                 filter_params_ := c.filter_params_,
                 bias_params_ := c.bias_params_,
                 work_space_ := none,
                 work_space_size_ := 0,
                 is_gradient_ := c.is_gradient_,
                 input_vectorization_ := c.input_vectorization_,
                 filter_desc_ := filter_desc,
                 bias_desc_ := bias_desc,
                 conv_desc_ := conv_desc,
                 forward_algo_ := defaultForwardAlgo,
                 backward_filter_algo_ := defaultBackwardFilterAlgo,
                 backward_data_algo_ := defaultBackwardDataAlgo }) := rfl
    rw [hdesc] at hr
    dsimp only at hr
    exact ⟨_, hw, hr, rfl, rfl, rfl, rfl, rfl, rfl, rfl, rfl, rfl, rfl, rfl, rfl, rfl, rfl, rfl, rfl⟩

/-- Claim C4 witness at `exampleComponent`. -/
theorem C4_serialization_roundtrip_witness :
    ∃ c2, Write exampleComponent = .ok (writeTokens exampleComponent) ∧
      Read (writeTokens exampleComponent) = .ok c2 ∧
      c2.filter_params_ = exampleComponent.filter_params_ ∧
      c2.bias_params_ = exampleComponent.bias_params_ ∧
      c2.filter_desc_ = exampleComponent.filter_desc_ ∧
      GetOutputDims c2 = GetOutputDims exampleComponent := by
  obtain ⟨c2, hw, hr, h1, h2, h3, h4, h5, h6, h7, h8, h9, h10, h11, h12, h13, h14, h15, h16⟩ :=
    C4_serialization_roundtrip exampleComponent rfl
  exact ⟨c2, hw, hr, h9, h10, h11, h16⟩

/-! ## Claim C5 -/

/-- Claim C5: for every component with well-formed filter storage,
`Vectorize` writes the parameters into one contiguous vector in the fixed
order [filter rows concatenated, then bias], `UnVectorize` applied to that
vector restores the original filter and bias tensors exactly, and both
operations abort on any vector whose length differs from
`NumParameters()`. -/
theorem C5_vectorize_roundtrip (c : CuDNN3DConvolutionComponent)
    (hwf : c.filter_params_.wf) :
    (∀ params : List BF, params.length = NumParameters c →
      Vectorize c params = .ok (c.filter_params_.rows.flatten ++ c.bias_params_)) ∧
    UnVectorize c (c.filter_params_.rows.flatten ++ c.bias_params_) = .ok c ∧
    (∀ params : List BF, params.length ≠ NumParameters c →
      Vectorize c params = .error .assertFailed ∧
      UnVectorize c params = .error .assertFailed) := by
  obtain ⟨hrows, hcols⟩ := hwf
  have hflat : c.filter_params_.rows.flatten.length
      = c.filter_params_.numRows * c.filter_params_.numCols := by
    rw [flatten_length_of_wf _ _ hcols, hrows]
  have hlen : (c.filter_params_.rows.flatten ++ c.bias_params_).length = NumParameters c := by
    rw [List.length_append, hflat, NumParameters, Nat.mul_comm]
  refine ⟨fun params hp => ?_, ?_, fun params hp => ⟨?_, ?_⟩⟩
  · unfold Vectorize
    rw [if_pos hp]
  · unfold UnVectorize
    rw [if_pos hlen]
    dsimp only
    rw [List.take_left' hflat, List.drop_left' hflat, List.take_length]
    have hchunk : chunkRows c.filter_params_.numRows c.filter_params_.numCols
        c.filter_params_.rows.flatten = c.filter_params_.rows := by
      conv_lhs => rw [← hrows]
      have h := chunkRows_flatten c.filter_params_.numCols c.filter_params_.rows hcols []
      rw [List.append_nil] at h
      exact h
    rw [hchunk]
  · unfold Vectorize
    rw [if_neg hp]
  · unfold UnVectorize
    rw [if_neg hp]

/-- Claim C5 witness at `exampleComponent` (filter `[[2]]`, bias `[3]`,
`NumParameters = 2`). -/
theorem C5_vectorize_roundtrip_witness :
    Vectorize exampleComponent [.fin 0, .fin 0] = .ok [.fin 2, .fin 3] ∧
    UnVectorize exampleComponent [.fin 2, .fin 3] = .ok exampleComponent ∧
    Vectorize exampleComponent [.fin 0] = .error .assertFailed := by
  have h := C5_vectorize_roundtrip exampleComponent (by decide)
  exact ⟨h.1 [.fin 0, .fin 0] (by decide), h.2.1,
         (h.2.2 [.fin 0] (by decide)).1⟩

/-! ## Claim C6 -/

/-- Claim C6 counterexample: `DotProduct` called with a wrong-typed peer
(`dynamic_cast` result null) dereferences the null pointer — the outcome is
not the claimed fatal type-mismatch assertion. -/
theorem C6_counterexample :
    DotProduct exampleComponent none = .error Fatal.nullDeref ∧
    Fatal.nullDeref ≠ Fatal.assertFailed :=
  ⟨rfl, by decide⟩

/-- Claim C6 (amended): when the `other` component is not of the same
concrete type, `Add` fails with the fatal `KALDI_ASSERT(other != NULL)`
type-mismatch assertion, but `DotProduct` performs the `dynamic_cast`
without any null check and dereferences the null pointer (undefined
behaviour), not an assertion. -/
theorem C6_type_mismatch (c : CuDNN3DConvolutionComponent) (alpha : BF) :
    Add c alpha none = .error .assertFailed ∧
    DotProduct c none = .error .nullDeref :=
  ⟨rfl, rfl⟩

/-! ## Claim C7 -/

/-- Claim C7 counterexample: cloning a component whose cached workspace size
is nonzero allocates the clone's workspace immediately in the copy
constructor — it is `some` (non-null) before any use, refuting
"allocated on first use". -/
theorem C7_counterexample :
    (CopyConstructor exampleComponentWS ⟨5⟩).1.work_space_ = some 5 ∧
    (some 5 : Option Nat) ≠ none :=
  ⟨rfl, by decide⟩

/-- Claim C7 (amended): cloning deep-copies the parameters and the three
descriptors and never shares the workspace buffer with the original; the
clone's workspace is a fresh buffer of the original's cached size,
allocated eagerly in the copy constructor when that size is nonzero (and
null when it is zero), not lazily on first use. -/
theorem C7_clone_fresh_workspace (c : CuDNN3DConvolutionComponent) (a : Alloc)
    (hinv : ∀ buf, c.work_space_ = some buf → buf < a.next) :
    ((CopyConstructor c a).1.filter_params_ = c.filter_params_ ∧
     (CopyConstructor c a).1.bias_params_ = c.bias_params_ ∧
     (CopyConstructor c a).1.filter_desc_ = c.filter_desc_ ∧
     (CopyConstructor c a).1.bias_desc_ = c.bias_desc_ ∧
     (CopyConstructor c a).1.conv_desc_ = c.conv_desc_ ∧
     (CopyConstructor c a).1.work_space_size_ = c.work_space_size_) ∧
    (∀ buf, (CopyConstructor c a).1.work_space_ = some buf → c.work_space_ ≠ some buf) ∧
    (c.work_space_size_ ≠ 0 → (CopyConstructor c a).1.work_space_ = some a.next) ∧
    (c.work_space_size_ = 0 → (CopyConstructor c a).1.work_space_ = none) := by
  by_cases hsz : c.work_space_size_ = 0
  · have hk : (CopyConstructor c a).1 = { c with work_space_ := none } := by
      simp [CopyConstructor, hsz]
    rw [hk]
    refine ⟨⟨rfl, rfl, rfl, rfl, rfl, rfl⟩, ?_, fun h => absurd hsz h, fun _ => rfl⟩
    intro buf hb
    exact absurd hb (by simp)
  · have hk : (CopyConstructor c a).1 = { c with work_space_ := some a.next } := by
      simp [CopyConstructor, hsz, CuDeviceMalloc]
    rw [hk]
    refine ⟨⟨rfl, rfl, rfl, rfl, rfl, rfl⟩, ?_, fun _ => rfl, fun h => absurd h hsz⟩
    intro buf hb hshare
    have hbuf : a.next = buf := by injection hb
    have hlt := hinv buf hshare
    omega

/-- Claim C7 witness at `exampleComponentWS` with allocator counter 5 (its
only live buffer id is 0). -/
theorem C7_clone_fresh_workspace_witness :
    (∀ buf, (CopyConstructor exampleComponentWS ⟨5⟩).1.work_space_ = some buf →
      exampleComponentWS.work_space_ ≠ some buf) ∧
    (CopyConstructor exampleComponentWS ⟨5⟩).1.filter_params_
      = exampleComponentWS.filter_params_ := by
  have h := C7_clone_fresh_workspace exampleComponentWS ⟨5⟩
    (by intro buf hb
        have hb2 : (some 0 : Option Nat) = some buf := hb
        have hb3 : buf = 0 := by simpa using hb2.symm
        subst hb3
        show 0 < 5
        omega)
  exact ⟨h.2.1, h.1.1⟩

/-! ## Claim C8 -/

/-- Claim C8: for every call to `Propagate` or `Backprop`, if the filter or
bias parameters contain NaN, the call fails with the fatal `f == f` /
`b == b` assertion — returning the assertion failure no matter what the
convolution primitive would do, so the primitive is never invoked; and
under the precondition that the parameters are NaN-free, the asserted
conditions hold (the assertion branch is unreachable). -/
theorem C8_nan_guard (sq : ℚ → ℚ) (c : CuDNN3DConvolutionComponent)
    (inMat outMat : MatShape)
    (prim : Strides5 → Strides5 → Except Fatal Unit)
    (primB : Strides5 → Strides5 → Strides5 → Except Fatal Unit) :
    ((BF.nan ∈ c.filter_params_.rows.flatten ∨ BF.nan ∈ c.bias_params_) →
      Propagate sq c inMat outMat prim = .error .assertFailed ∧
      Backprop sq c inMat outMat primB = .error .assertFailed) ∧
    (BF.nan ∉ c.filter_params_.rows.flatten → BF.nan ∉ c.bias_params_ →
      (CuMat.frobeniusNorm sq c.filter_params_).ieeeEq
        (CuMat.frobeniusNorm sq c.filter_params_) = true ∧
      (sumBF c.bias_params_).ieeeEq (sumBF c.bias_params_) = true) := by
  constructor
  · intro h
    by_cases hf : BF.nan ∈ c.filter_params_.rows.flatten
    · have hnorm := frobeniusNorm_eq_nan_of_mem sq hf
      constructor
      · unfold Propagate
        dsimp only
        rw [hnorm]
        rfl
      · unfold Backprop
        dsimp only
        rw [hnorm]
        rfl
    · have hb : BF.nan ∈ c.bias_params_ := h.resolve_left hf
      obtain ⟨q, hq⟩ := frobeniusNorm_ne_nan sq hf
      have hsum := sumBF_eq_nan_of_mem hb
      constructor
      · unfold Propagate
        dsimp only
        rw [hq, hsum, ieeeEq_self_fin]
        simp [BF.ieeeEq]
      · unfold Backprop
        dsimp only
        rw [hq, hsum, ieeeEq_self_fin]
        simp [BF.ieeeEq]
  · intro hf hb
    obtain ⟨q, hq⟩ := frobeniusNorm_ne_nan sq hf
    obtain ⟨p, hp⟩ := sumBF_ne_nan hb
    rw [hq, hp]
    exact ⟨ieeeEq_self_fin q, ieeeEq_self_fin p⟩

/-- Claim C8 witness at `exampleComponentNaN` (a NaN planted in the filter):
the forward pass aborts with the assertion failure for every primitive
behaviour. -/
theorem C8_nan_guard_witness :
    Propagate id exampleComponentNaN ⟨1, 1, 1⟩ ⟨1, 1, 1⟩ (fun _ _ => .ok ())
      = .error .assertFailed ∧
    Backprop id exampleComponentNaN ⟨1, 1, 1⟩ ⟨1, 1, 1⟩ (fun _ _ _ => .ok ())
      = .error .assertFailed := by
  have h := (C8_nan_guard id exampleComponentNaN ⟨1, 1, 1⟩ ⟨1, 1, 1⟩
    (fun _ _ => .ok ()) (fun _ _ _ => .ok ())).1 (Or.inl (by decide))
  exact ⟨h.1, h.2⟩

/-! ## Claim C9 -/

/-- Claim C9: when the configuration does not explicitly supply
`param-stddev`, random initialization uses the default standard deviation
`1/sqrt(filtX·filtY·inputZ)` (kernel X and Y extents times the *input* Z
extent) and `bias-stddev` defaults to 1.0; these defaults pass the `Init`
guard, and any negative stddev makes initialization fail fatally. -/
theorem C9_default_stddevs (cfl : RandomInitConfigLine)
    (filt_x_dim filt_y_dim input_z_dim : Int)
    (hp : cfl.param_stddev = none) (hb : cfl.bias_stddev = none) :
    InitFromConfigStddevs cfl filt_x_dim filt_y_dim input_z_dim
      = (1 / Real.sqrt ((filt_x_dim * filt_y_dim * input_z_dim : Int) : ℝ), 1) ∧
    InitRandomStddevCheck
      (1 / Real.sqrt ((filt_x_dim * filt_y_dim * input_z_dim : Int) : ℝ)) 1 = .ok () ∧
    (∀ p b : ℝ, p < 0 ∨ b < 0 →
      InitRandomStddevCheck p b = .error .assertFailed) := by
  refine ⟨?_, ?_, ?_⟩
  · unfold InitFromConfigStddevs
    rw [hp, hb]
  · unfold InitRandomStddevCheck
    rw [if_pos]
    constructor
    · positivity
    · norm_num
  · intro p b hneg
    unfold InitRandomStddevCheck
    rw [if_neg]
    intro hpos
    rcases hneg with h | h
    · exact absurd hpos.1 (not_le.mpr h)
    · exact absurd hpos.2 (not_le.mpr h)

/-- Claim C9 witness: a config line with neither `param-stddev` nor
`bias-stddev` and `filtX = filtY = 2`, `inputZ = 3`. -/
theorem C9_default_stddevs_witness :
    InitFromConfigStddevs ⟨none, none⟩ 2 2 3
      = (1 / Real.sqrt ((2 * 2 * 3 : Int) : ℝ), 1) ∧
    InitRandomStddevCheck (1 / Real.sqrt ((2 * 2 * 3 : Int) : ℝ)) 1 = .ok () := by
  have h := C9_default_stddevs ⟨none, none⟩ 2 2 3 rfl rfl
  exact ⟨h.1, h.2.1⟩

/-! ## Claim C10 -/

/-- Claim C10 counterexample: deserializing a stream whose
`<InputVectorization>` field is the unsupported int32 value 7 does NOT
succeed with the error deferred to the first later stride derivation — the
`Read` call itself aborts with the fatal unknown-vectorization error,
raised inside its trailing `InitDescriptor` rebuild when the bias strides
are derived by `FillInputStrides`. -/
theorem C10_counterexample :
    Read exampleStreamBadVectorization = .error Fatal.unknownVectorization :=
  rfl

/-- Claim C10 (amended): `Read` casts any int32 `<InputVectorization>` value
to the vectorization field without validating it (there is no read-time
validation error distinct from the stride-derivation error), and for any
unsupported value the fatal 'unknown or unsupported input vectorization
order' error is raised by the first stride derivation — which occurs
already inside `Read` itself, when `InitDescriptor` derives the bias
strides via `FillInputStrides`, not at the first
Propagate/Backprop/GetOutputDims. -/
theorem C10_read_unvalidated_cast (lr : BF)
    (ix iy iz inf nf fx fy fz px py pz sx sy sz ux uy uz iv : Int)
    (fp : CuMat) (bp : List BF) (ig : Bool)
    (h1 : iv ≠ kZyx) (h2 : iv ≠ kYzx) :
    Read [.updatableHeader lr,
          .tag .inputXDim, .int ix,
          .tag .inputYDim, .int iy,
          .tag .inputZDim, .int iz,
          .tag .inputNumFilters, .int inf,
          .tag .outputNumFilters, .int nf,
          .tag .filterXDim, .int fx,
          .tag .filterYDim, .int fy,
          .tag .filterZDim, .int fz,
          .tag .filterXPadding, .int px,
          .tag .filterYPadding, .int py,
          .tag .filterZPadding, .int pz,
          .tag .filterXStride, .int sx,
          .tag .filterYStride, .int sy,
          .tag .filterZStride, .int sz,
          .tag .filterXUpscale, .int ux,
          .tag .filterYUpscale, .int uy,
          .tag .filterZUpscale, .int uz,
          .tag .inputVectorization, .int iv,
          .tag .filterParams, .mat fp,
          .tag .biasParams, .vec bp,
          .tag .isGradient, .boolv ig,
          .tag .closingTag] = .error .unknownVectorization ∧
    FillInputStrides iv ⟨1, nf, 1, 1, 1⟩ = .error .unknownVectorization := by
  have hFill : FillInputStrides iv ⟨1, nf, 1, 1, 1⟩ = .error .unknownVectorization := by
    unfold FillInputStrides
    rw [if_neg h1, if_neg h2]
  have hI : InitDescriptor nf inf iv fx fy fz sx sy sz px py pz ux uy uz
      = .error .unknownVectorization := by
    unfold InitDescriptor
    dsimp only
    rw [hFill]
  refine ⟨?_, hFill⟩
  have hr : Read [.updatableHeader lr,
          .tag .inputXDim, .int ix,
          .tag .inputYDim, .int iy,
          .tag .inputZDim, .int iz,
          .tag .inputNumFilters, .int inf,
          .tag .outputNumFilters, .int nf,
          .tag .filterXDim, .int fx,
          .tag .filterYDim, .int fy,
          .tag .filterZDim, .int fz,
          .tag .filterXPadding, .int px,
          .tag .filterYPadding, .int py,
          .tag .filterZPadding, .int pz,
          .tag .filterXStride, .int sx,
          .tag .filterYStride, .int sy,
          .tag .filterZStride, .int sz,
          .tag .filterXUpscale, .int ux,
          .tag .filterYUpscale, .int uy,
          .tag .filterZUpscale, .int uz,
          .tag .inputVectorization, .int iv,
          .tag .filterParams, .mat fp,
          .tag .biasParams, .vec bp,
          .tag .isGradient, .boolv ig,
          .tag .closingTag] =
      (match InitDescriptor nf inf iv fx fy fz sx sy sz px py pz ux uy uz with
       | .error e => (.error e : Except Fatal CuDNN3DConvolutionComponent)
       | .ok (filter_desc, conv_desc, bias_desc) =>
         .ok { learning_rate_ := lr,
               input_x_dim_ := ix,
               input_y_dim_ := iy,
               input_z_dim_ := iz,
               input_num_filters_ := inf,
               num_filters_ := nf,
               filter_params_ := fp,
               bias_params_ := bp,
               work_space_ := none,
               work_space_size_ := 0,
               is_gradient_ := ig,
               input_vectorization_ := iv,
               filter_desc_ := filter_desc,
               bias_desc_ := bias_desc,
               conv_desc_ := conv_desc,
               forward_algo_ := defaultForwardAlgo,
               backward_filter_algo_ := defaultBackwardFilterAlgo,
               backward_data_algo_ := defaultBackwardDataAlgo }) := rfl
  rw [hI] at hr
  exact hr

/-- Claim C10 witness: the amended theorem applied at the concrete stream
with `<InputVectorization> = 7`. -/
theorem C10_read_unvalidated_cast_witness :
    Read exampleStreamBadVectorization = .error Fatal.unknownVectorization ∧
    FillInputStrides 7 ⟨1, 1, 1, 1, 1⟩ = .error Fatal.unknownVectorization := by
  have h := C10_read_unvalidated_cast (.fin 1) 1 1 1 1 1 1 1 1 0 0 0 1 1 1 1 1 1 7
    ⟨1, 1, [[.fin 2]]⟩ [.fin 3] false (by decide) (by decide)
  exact ⟨h.1, h.2⟩

end Kaldi
